import Mathlib

/-!
# Verification of the Android FFI bridge (rustdesk)

Shallow embedding of the bridge layer in `src/libs/scrap/src/android/ffi.rs`
and `src/src/android_ffi.rs`:

* `FrameRaw` — the single-slot raw frame relay (video/audio), with a
  staleness timeout and dedup-by-equality on take;
* the clipboard mailboxes (`CLIPBOARDS_HOST` / `CLIPBOARDS_CLIENT`) fed by
  `Java_ffi_FFI_onClipboardUpdate` and drained by `get_clipboards`;
* the session registry `SESSIONS` operated by `Java_ffi_FFI_sessionAdd` and
  the per-session query/control entry points;
* the global event callback registry of `register_global_event_callback` /
  `push_global_event`, and the per-session callback replacement performed by
  `session_start_with_android_callback`.

Machine integers only occur as byte values and millisecond counts, both of
which stay far from overflow in every statement below, so they are modelled
as `Nat`.  `Instant` timestamps are milliseconds; `Instant::elapsed` at time
`now` is the truncated difference `now - last_update` (monotone clocks never
run backwards, and `Nat` subtraction truncates at zero exactly like a
monotone clock that has not advanced).
-/

/-- A byte buffer: the sequence of byte values a pointer/length pair
addresses. -/
abbrev Bytes := List Nat

/-! ## FrameRaw (src/libs/scrap/src/android/ffi.rs, lines 66-133) -/

/-- `FrameRaw` from ffi.rs.  `ptr` is the `AtomicPtr<u8>`: `none` models the
null pointer, `some data` models a pointer to a memory region holding
`data`; `len` is the separately tracked length field.  `update` installs
pointer and length of one Java direct byte buffer, so the region addressed
by `ptr` always carries exactly the bytes the producer handed over. -/
structure FrameRaw where
  name : String
  ptr : Option Bytes
  len : Nat
  last_update : Nat
  timeout : Nat
  enable : Bool
deriving Repr, DecidableEq

/-- `FrameRaw::new`: null pointer, zero length, disabled.  `now` is the
creation instant (`Instant::now()`). -/
def FrameRaw.new (name : String) (timeout : Nat) (now : Nat) : FrameRaw :=
  ⟨name, none, 0, now, timeout, false⟩

/-- `MAX_VIDEO_FRAME_TIMEOUT` (ffi.rs line 63): 100 ms. -/
def MAX_VIDEO_FRAME_TIMEOUT : Nat := 100

/-- `MAX_AUDIO_FRAME_TIMEOUT` (ffi.rs line 64): 1000 ms. -/
def MAX_AUDIO_FRAME_TIMEOUT : Nat := 1000

/-- The `VIDEO_RAW` slot as first constructed at time `now`:
`FrameRaw::new("video", MAX_VIDEO_FRAME_TIMEOUT)`. -/
def videoRaw (now : Nat) : FrameRaw :=
  FrameRaw.new "video" MAX_VIDEO_FRAME_TIMEOUT now

/-- `FrameRaw::set_enable` (lines 87-91): store the flag, null the pointer,
zero the length — unconditionally, for both `true` and `false`. -/
def FrameRaw.set_enable (fr : FrameRaw) (value : Bool) : FrameRaw :=
  { fr with enable := value, ptr := none, len := 0 }

/-- `FrameRaw::update` (lines 93-100): no-op when disabled; otherwise store
the new length and pointer and stamp `last_update = now`.  The Java caller
passes the address and capacity of one direct buffer, so the pointer/length
pair is carried here as the single byte list `data`. -/
def FrameRaw.update (fr : FrameRaw) (data : Bytes) (now : Nat) : FrameRaw :=
  if !fr.enable then fr
  else { fr with len := data.length, ptr := some data, last_update := now }

/-- `FrameRaw::release` (lines 129-132): zero the length, null the
pointer. -/
def FrameRaw.release (fr : FrameRaw) : FrameRaw :=
  { fr with len := 0, ptr := none }

/-- Modelled from the spec: `crate::would_block_if_equal` lives in scrap's
`lib.rs`, which is not under src/.  Per the spec's dedup-by-equality policy
("compares the retrieved bytes against `previous_buffer`; if byte-identical,
returns `None`"), the call errors (`is_err()`) exactly when the two byte
sequences are identical. -/
def would_block_if_equal_is_err (old b : Bytes) : Bool :=
  old == b

/-- `FrameRaw::take` (lines 104-127): `None` when disabled; `None` when the
pointer is null or the length is zero; `None` when the data is older than
`timeout`; otherwise read the `len` bytes at `ptr`, release the slot, then
suppress the delivery (`None`) when the bytes equal `last` (the guard
`last.len() == slice.len() && would_block_if_equal(last, slice).is_err()`),
else copy the bytes into `dst` and return presence.  The returned pair is
(copied bytes if any, slot state after the call). -/
def FrameRaw.take (fr : FrameRaw) (now : Nat) (last : Bytes) :
    Option Bytes × FrameRaw :=
  if !fr.enable then (none, fr)
  else
    match fr.ptr with
    | none => (none, fr)
    | some data =>
      if fr.len = 0 then (none, fr)
      else if fr.timeout < now - fr.last_update then (none, fr)
      else
        let slice := data
        let fr2 := fr.release
        if last.length == slice.length && would_block_if_equal_is_err last slice then
          (none, fr2)
        else
          (some slice, fr2)

/-- A sequence of producer updates `(data, time)` applied in order
(`FrameRaw::update` calls). -/
def applyUpdates (fr : FrameRaw) (us : List (Bytes × Nat)) : FrameRaw :=
  us.foldl (fun f u => f.update u.1 u.2) fr

/-- The invariant of the spec's data model: a disabled slot holds no buffer
(null pointer, zero length). -/
def FrameInv (fr : FrameRaw) : Prop :=
  fr.enable = false → fr.ptr = none ∧ fr.len = 0

instance (fr : FrameRaw) : Decidable (FrameInv fr) := by
  unfold FrameInv; infer_instance

/-! ## Association lists

`SESSIONS` and `GLOBAL_EVENT_CALLBACKS` are `HashMap`s; they are modelled as
association lists with `HashMap` semantics: `insert` replaces the value when
the key is present, `get` returns the value of the unique entry for a key. -/

/-- `HashMap::insert`: replace the existing entry for `k`, or append a new
one. -/
def alInsert {α β : Type} [DecidableEq α] (m : List (α × β)) (k : α) (v : β) :
    List (α × β) :=
  match m with
  | [] => [(k, v)]
  | (k', v') :: rest =>
    if k' = k then (k, v) :: rest else (k', v') :: alInsert rest k v

/-- `HashMap::get`: the value stored under `k`, if any. -/
def alGet {α β : Type} [DecidableEq α] (m : List (α × β)) (k : α) : Option β :=
  match m with
  | [] => none
  | (k', v') :: rest => if k' = k then some v' else alGet rest k

/-! ## Clipboard mailboxes (ffi.rs, lines 55-56, 143-149, 189-208) -/

/-- Modelled from the spec: `MultiClipboards` and its protobuf parser
`MultiClipboards::parse_from_bytes` live in hbb_common, which is not under
src/.  The payload is modelled as the parsed view of the bytes it was built
from, and parsing is modelled as total ("parses the remaining bytes
`data[1..]`"); which byte sequences the real protobuf parser rejects does
not enter any claim. -/
structure MultiClipboards where
  raw : Bytes
deriving Repr, DecidableEq

/-- Modelled from the spec: `MultiClipboards::parse_from_bytes`. -/
def parse_from_bytes (data : Bytes) : Option MultiClipboards :=
  some ⟨data⟩

/-- The two clipboard mailboxes: `CLIPBOARDS_HOST` and `CLIPBOARDS_CLIENT`
(ffi.rs lines 55-56), each `Option<MultiClipboards>`. -/
structure ClipboardState where
  host : Option MultiClipboards
  client : Option MultiClipboards
deriving Repr, DecidableEq

/-- The mailbox of one direction: `true` selects the client slot, `false`
the host slot (mirroring `is_client = data[0] == 1`). -/
def ClipboardState.slot (st : ClipboardState) (client : Bool) :
    Option MultiClipboards :=
  if client then st.client else st.host

/-- The write performed by `Java_ffi_FFI_onClipboardUpdate` once the payload
is parsed (lines 199-204): `*CLIPBOARDS_CLIENT = Some(clips)` or
`*CLIPBOARDS_HOST = Some(clips)` — an unconditional overwrite. -/
def publish_clipboard (client : Bool) (clips : MultiClipboards)
    (st : ClipboardState) : ClipboardState :=
  if client then { st with client := some clips }
  else { st with host := some clips }

/-- `Java_ffi_FFI_onClipboardUpdate` (lines 189-208), after the JNI buffer
has been resolved to `len` bytes `data`: slice `&data[1..]`, parse it, read
the direction tag `data[0]`, overwrite the selected mailbox.  On an empty
buffer the slicing `&data[1..]` (and the indexing `data[0]`) is out of
bounds and the call panics, modelled as `none`. -/
def onClipboardUpdate (data : Bytes) (st : ClipboardState) :
    Option ClipboardState :=
  match data with
  | [] => none
  | tag :: rest =>
    match parse_from_bytes rest with
    | none => some st
    | some clips => some (publish_clipboard (tag == 1) clips st)

/-- `get_clipboards` (lines 143-149): `Option::take` on the selected
mailbox — remove and return the pending payload.  The returned pair is
(taken payload if any, mailbox state after the call). -/
def get_clipboards (client : Bool) (st : ClipboardState) :
    Option MultiClipboards × ClipboardState :=
  if client then (st.client, { st with client := none })
  else (st.host, { st with host := none })

/-! ## Session registry (ffi.rs, lines 60, 606-675, 760-800, 1536-1585) -/

/-- `Session::new(session_id, id)` as far as the bridge observes it: the ui
session id and the peer id it was created with.  (The full
`ui_session_interface::Session` carries connection state that is external
to src/ and enters no claim.)  Session ids are opaque 128-bit UUIDs,
modelled as `Nat`. -/
structure Session where
  session_id : Nat
  peer_id : String
deriving Repr, DecidableEq

/-- The `SESSIONS` registry: `HashMap<SessionID, Arc<Session>>` (ffi.rs
line 60). -/
abbrev SessionMap := List (Nat × Session)

/-- `Java_ffi_FFI_sessionAdd` (lines 606-675), after all JNI strings and the
UUID have been parsed: build `Session::new(session_id, id)`, insert it into
`SESSIONS` (lines 664-672, a plain `HashMap::insert`), and return the empty
string (line 674) which signals success to the Java caller.  The returned
pair is (registry after the call, returned status string). -/
def sessionAdd (m : SessionMap) (sid : Nat) (peer : String) :
    SessionMap × String :=
  (alInsert m sid ⟨sid, peer⟩, "")

/-- `Java_ffi_FFI_sessionGetPlatform` (lines 760-800), after parsing: look
the session up in `SESSIONS`; on a hit call `session.get_platform(is_remote)`
(an external `ui_session_interface` method, passed in as `platformOf`), on a
miss return the empty string (lines 793-797). -/
def sessionGetPlatform (platformOf : Session → Bool → String)
    (m : SessionMap) (sid : Nat) (is_remote : Bool) : String :=
  match alGet m sid with
  | some s => platformOf s is_remote
  | none => ""

/-- `Java_ffi_FFI_sessionGetImageQuality` (lines 803-841): same shape, with
the external method `session.get_image_quality()` passed in as
`qualityOf`. -/
def sessionGetImageQuality (qualityOf : Session → String)
    (m : SessionMap) (sid : Nat) : String :=
  match alGet m sid with
  | some s => qualityOf s
  | none => ""

/-- A key event as passed to `Java_ffi_FFI_sessionInputKey`. -/
structure KeyEvent where
  name : String
  down : Bool
  press : Bool
  alt : Bool
  ctrl : Bool
  shift : Bool
  command : Bool
deriving Repr, DecidableEq

/-- `Java_ffi_FFI_sessionInputKey` (lines 1536-1585), after parsing: look
the session up (`sessions::get_session_by_session_id`, a registry lookup)
and call `session.input_key(...)` only on a hit; a miss does nothing.  The
result records the invocation that was performed, `none` meaning a silent
no-op. -/
def sessionInputKey (m : SessionMap) (sid : Nat) (ev : KeyEvent) :
    Option (Session × KeyEvent) :=
  (alGet m sid).map (fun s => (s, ev))

/-- `Java_ffi_FFI_sessionLockScreen` (lines 1625-1650): look the session up
and call `session.lock_screen()` only on a hit; a miss does nothing.  The
result records the session the call was dispatched to. -/
def sessionLockScreen (m : SessionMap) (sid : Nat) : Option Session :=
  alGet m sid

/-! ## Global event callback registry (src/src/android_ffi.rs, lines 13-126) -/

/-- A registered sink: the JNI `GlobalRef` callback object, identified
opaquely. -/
abbrev Sink := Nat

/-- The outcome of `register_global_event_callback`: the registry after the
call, the close notifications it delivered (sink, event) in order, and the
returned boolean. -/
structure RegisterResult where
  callbacks : List (String × Sink)
  closed : List (Sink × String)
  ok : Bool
deriving Repr, DecidableEq

/-- `app_type.split(',').collect()[0]`: the first comma-separated component
of a string, i.e. its prefix up to the first comma (Rust's `split` always
yields at least one component, the whole string when no comma occurs). -/
def firstSplit (s : String) : String :=
  ⟨s.data.takeWhile (fun c => c != ',')⟩

/-- `register_global_event_callback` (android_ffi.rs lines 55-86), after
the JNI marshalling: split `app_type` on `','`; if no callback is stored
under the first component, insert the new callback under that component;
otherwise insert it under the full `app_type` string and log a replacement
warning.  No notification of any kind is sent to a previously stored
callback on either branch. -/
def register_global_event_callback (cbs : List (String × Sink))
    (app_type : String) (cb : Sink) : RegisterResult :=
  if (alGet cbs (firstSplit app_type)).isNone then
    ⟨alInsert cbs (firstSplit app_type) cb, [], true⟩
  else
    ⟨alInsert cbs app_type cb, [], true⟩

/-- `push_global_event` (android_ffi.rs lines 107-115): look the channel up
and invoke `callback.send_event(event)` on a hit.  The result records which
sink received which event, `none` meaning no sink was registered under the
channel. -/
def push_global_event (cbs : List (String × Sink)) (channel : String)
    (event : String) : Option (Sink × String) :=
  (alGet cbs channel).map (fun cb => (cb, event))

/-! ## Per-session event sinks (src/src/android_ffi.rs, lines 229-346) -/

/-- `AndroidSessionHandler` (android_ffi.rs lines 230-233): the mutable
per-session event sink slot (the `displays` field enters no claim). -/
structure AndroidSessionHandler where
  event_callback : Option Sink
deriving Repr, DecidableEq

/-- Modelled from the spec: the flutter sessions store
(`crate::flutter::sessions`, iterated by `get_sessions()`) is not under
src/.  Per the spec it is a registry of sessions, each owning a handler map
keyed by ui session id; on Android every handler downcasts to
`AndroidSessionHandler`, so the store is a list of handler maps. -/
abbrev FlutterSessions := List (List (Nat × AndroidSessionHandler))

/-- The outcome of the replacement loop of
`session_start_with_android_callback`: the store after the loop, the events
it delivered (sink, event) in order, and the `is_connected`/`is_found`
flags. -/
structure SessionStartResult where
  sessions : FlutterSessions
  sent : List (Sink × String)
  is_connected : Bool
  is_found : Bool
deriving Repr, DecidableEq

/-- The `for s in get_sessions()` loop of
`session_start_with_android_callback` (android_ffi.rs lines 308-322): find
the first session whose handler map contains `sid`; record whether a
callback was already installed, send the event `"close"` to it if so,
install the new callback, and stop. -/
def sessionsReplace (ss : FlutterSessions) (sid : Nat) (cb : Sink) :
    SessionStartResult :=
  match ss with
  | [] => ⟨[], [], false, false⟩
  | s :: rest =>
    match alGet s sid with
    | some handler =>
      ⟨alInsert s sid ⟨some cb⟩ :: rest,
        match handler.event_callback with
        | some old => [(old, "close")]
        | none => [],
        handler.event_callback.isSome, true⟩
    | none =>
      let r := sessionsReplace rest sid cb
      ⟨s :: r.sessions, r.sent, r.is_connected, r.is_found⟩

/-- `session_start_with_android_callback` (android_ffi.rs lines 300-346) up
to its replacement phase: run the loop, and bail with an error when no
session contains `sid`.  (The subsequent `io_loop` thread spawn is
concurrent machinery outside this model and enters no claim.) -/
def session_start_with_android_callback (ss : FlutterSessions) (sid : Nat)
    (cb : Sink) : Except String SessionStartResult :=
  let r := sessionsReplace ss sid cb
  if !r.is_found then .error "No session"
  else .ok r

/-! ## Helper lemmas -/

theorem alGet_alInsert_self {α β : Type} [DecidableEq α]
    (m : List (α × β)) (k : α) (v : β) : alGet (alInsert m k v) k = some v := by
  induction m with
  | nil => simp [alInsert, alGet]
  | cons hd tl ih =>
    obtain ⟨k', v'⟩ := hd
    by_cases h : k' = k
    · simp [alInsert, alGet, h]
    · simp [alInsert, alGet, h, ih]

theorem dedup_guard_eq_true_iff (last slice : Bytes) :
    (last.length == slice.length &&
      would_block_if_equal_is_err last slice) = true ↔ last = slice := by
  unfold would_block_if_equal_is_err
  simp [Bool.and_eq_true]
  intro h
  rw [h]

theorem update_enable (fr : FrameRaw) (d : Bytes) (t : Nat) :
    (fr.update d t).enable = fr.enable := by
  cases h : fr.enable <;> simp [FrameRaw.update, h]

theorem update_timeout (fr : FrameRaw) (d : Bytes) (t : Nat) :
    (fr.update d t).timeout = fr.timeout := by
  cases h : fr.enable <;> simp [FrameRaw.update, h]

theorem applyUpdates_enable (us : List (Bytes × Nat)) (fr : FrameRaw) :
    (applyUpdates fr us).enable = fr.enable := by
  induction us generalizing fr with
  | nil => rfl
  | cons u rest ih =>
    simp only [applyUpdates, List.foldl_cons]
    exact (ih (fr.update u.1 u.2)).trans (update_enable fr u.1 u.2)

theorem applyUpdates_timeout (us : List (Bytes × Nat)) (fr : FrameRaw) :
    (applyUpdates fr us).timeout = fr.timeout := by
  induction us generalizing fr with
  | nil => rfl
  | cons u rest ih =>
    simp only [applyUpdates, List.foldl_cons]
    exact (ih (fr.update u.1 u.2)).trans (update_timeout fr u.1 u.2)

theorem applyUpdates_append (fr : FrameRaw) (us vs : List (Bytes × Nat)) :
    applyUpdates fr (us ++ vs) = applyUpdates (applyUpdates fr us) vs := by
  simp [applyUpdates, List.foldl_append]

theorem sessionsReplace_skip (s2 : List (Nat × AndroidSessionHandler))
    (ss : FlutterSessions) (sid : Nat) (cb : Sink)
    (hs2 : alGet s2 sid = none) :
    sessionsReplace (s2 :: ss) sid cb =
      ⟨s2 :: (sessionsReplace ss sid cb).sessions,
       (sessionsReplace ss sid cb).sent,
       (sessionsReplace ss sid cb).is_connected,
       (sessionsReplace ss sid cb).is_found⟩ := by
  simp [sessionsReplace, hs2]

/-! ## Claim theorems -/

/-- C9: `set_enable(kind, value)` unconditionally clears the frame slot
(null pointer, zero length) for both `value = true` and `value = false`, so
enabling a kind also discards any pending frame, and a `take` immediately
after `set_enable(kind, true)` with no intervening `update` returns no
data. -/
theorem set_enable_always_clears :
    (∀ (fr : FrameRaw) (value : Bool),
      (fr.set_enable value).ptr = none ∧ (fr.set_enable value).len = 0)
    ∧ (∀ (fr : FrameRaw) (now : Nat) (last : Bytes),
      ((fr.set_enable true).take now last).1 = none) := by
  refine ⟨fun fr value => ⟨rfl, rfl⟩, fun fr now last => ?_⟩
  simp [FrameRaw.set_enable, FrameRaw.take]

/-- C6: `set_enabled(kind, false)` immediately clears the slot (null
pointer, zero length); while disabled, every `update` is a no-op and every
`take` returns no data and leaves the slot unchanged — even when an
`update` landed immediately before disabling; and the invariant
"`enabled = false` implies the buffer is empty" is preserved by
`set_enable`, `update` and `take`. -/
theorem set_enable_false_disables :
    (∀ fr : FrameRaw,
      (fr.set_enable false).ptr = none ∧ (fr.set_enable false).len = 0)
    ∧ (∀ (fr : FrameRaw) (data : Bytes) (now : Nat),
      fr.enable = false → fr.update data now = fr)
    ∧ (∀ (fr : FrameRaw) (now : Nat) (last : Bytes),
      fr.enable = false → fr.take now last = (none, fr))
    ∧ (∀ (fr : FrameRaw) (data : Bytes) (t now : Nat) (last : Bytes),
      (((fr.update data t).set_enable false).take now last).1 = none)
    ∧ (∀ (fr : FrameRaw) (value : Bool), FrameInv (fr.set_enable value))
    ∧ (∀ (fr : FrameRaw) (data : Bytes) (now : Nat),
      FrameInv fr → FrameInv (fr.update data now))
    ∧ (∀ (fr : FrameRaw) (now : Nat) (last : Bytes),
      FrameInv fr → FrameInv (fr.take now last).2) := by
  refine ⟨fun fr => ⟨rfl, rfl⟩, ?_, ?_, ?_, ?_, ?_, ?_⟩
  · intro fr data now h
    simp [FrameRaw.update, h]
  · intro fr now last h
    simp [FrameRaw.take, h]
  · intro fr data t now last
    simp [FrameRaw.set_enable, FrameRaw.take]
  · intro fr value
    intro _
    exact ⟨rfl, rfl⟩
  · intro fr data now h
    cases hen : fr.enable with
    | false =>
      simpa [FrameRaw.update, hen] using h
    | true =>
      intro hcon
      rw [update_enable] at hcon
      rw [hen] at hcon
      cases hcon
  · intro fr now last h
    cases hen : fr.enable with
    | false =>
      simpa [FrameRaw.take, hen] using h
    | true =>
      intro hcon
      exfalso
      cases hp : fr.ptr with
      | none =>
        simp [FrameRaw.take, hen, hp] at hcon
      | some data =>
        by_cases hlen : fr.len = 0
        · simp [FrameRaw.take, hen, hp, hlen] at hcon
        · by_cases hst : fr.timeout < now - fr.last_update
          · simp [FrameRaw.take, hen, hp, hlen, hst] at hcon
          · by_cases hd : (last.length == data.length &&
              would_block_if_equal_is_err last data) = true
            · simp [FrameRaw.take, hen, hp, hlen, hst, hd, FrameRaw.release] at hcon
            · simp [FrameRaw.take, hen, hp, hlen, hst, hd, FrameRaw.release] at hcon

/-- Witness for C6 at concrete inputs. -/
theorem set_enable_false_disables_witness :
    (videoRaw 0).update [1] 5 = videoRaw 0
    ∧ (videoRaw 0).take 3 [] = (none, videoRaw 0)
    ∧ FrameInv ((videoRaw 0).update [1] 5)
    ∧ FrameInv ((videoRaw 0).take 3 []).2 :=
  ⟨set_enable_false_disables.2.1 (videoRaw 0) [1] 5 rfl,
   set_enable_false_disables.2.2.1 (videoRaw 0) 3 [] rfl,
   set_enable_false_disables.2.2.2.2.2.1 (videoRaw 0) [1] 5 (by decide),
   set_enable_false_disables.2.2.2.2.2.2 (videoRaw 0) 3 [] (by decide)⟩

/-- C4: `take(kind, out_buffer, previous_buffer)` returns `none` exactly
when the kind is disabled, the stored pointer is null, the stored length is
zero, the stored data's age exceeds the staleness timeout, or the stored
bytes are byte-identical to `previous_buffer`; in every other case it
returns exactly the stored bytes and leaves the slot released (null
pointer, zero length). -/
theorem take_none_characterization (fr : FrameRaw) (now : Nat) (last : Bytes) :
    ((fr.take now last).1 = none ↔
      fr.enable = false ∨ fr.ptr = none ∨ fr.len = 0
      ∨ fr.timeout < now - fr.last_update ∨ fr.ptr = some last)
    ∧ (∀ d : Bytes,
      fr.take now last = (some d, fr.release) ↔
      fr.enable = true ∧ fr.ptr = some d ∧ 0 < fr.len
      ∧ now - fr.last_update ≤ fr.timeout ∧ (last == d) = false) := by
  cases hen : fr.enable with
  | false =>
    constructor
    · simp [FrameRaw.take, hen]
    · intro d
      simp [FrameRaw.take, hen]
  | true =>
    cases hp : fr.ptr with
    | none =>
      constructor
      · simp [FrameRaw.take, hen, hp]
      · intro d
        simp [FrameRaw.take, hen, hp]
    | some data =>
      by_cases hlen : fr.len = 0
      · constructor
        · simp [FrameRaw.take, hen, hp, hlen]
        · intro d
          simp [FrameRaw.take, hen, hp, hlen]
      · by_cases hst : fr.timeout < now - fr.last_update
        · constructor
          · simp [FrameRaw.take, hen, hp, hlen, hst]
          · intro d
            simp [FrameRaw.take, hen, hp, hlen, hst, Nat.lt_irrefl]
            intro h
            omega
        · by_cases hd : last = data
          · constructor
            · simp [FrameRaw.take, hen, hp, hlen, hst, hd,
                would_block_if_equal_is_err]
            · intro d
              simp [FrameRaw.take, hen, hp, hlen, hst, hd,
                would_block_if_equal_is_err]
              intro hpd
              subst hpd
              simp
          · have hguard : (last.length == data.length &&
                would_block_if_equal_is_err last data) = false := by
              by_contra hcon
              rw [Bool.not_eq_false] at hcon
              exact hd ((dedup_guard_eq_true_iff last data).mp hcon)
            constructor
            · simp [FrameRaw.take, hen, hp, hlen, hst, hguard]
              exact fun h => hd h.symm
            · intro d
              simp [FrameRaw.take, hen, hp, hlen, hst, hguard]
              intro hpd
              subst hpd
              exact ⟨Nat.pos_of_ne_zero hlen, by omega, hd⟩

/-- C3 counterexample: the universal claim "any sequence of updates followed
by one take within the staleness timeout returns the bytes of the most
recent update" fails as stated, because take also dedups against the
consumer's previous buffer: enable "video", update with `[1,2,3]`, take
50 ms later with previous buffer `[1,2,3]` returns no data, not
`[1,2,3]`. -/
theorem take_latest_counterexample :
    ((((videoRaw 0).set_enable true).update [1, 2, 3] 0).take 50 [1, 2, 3]).1 = none
    ∧ ((((videoRaw 0).set_enable true).update [1, 2, 3] 0).take 50
        [1, 2, 3]).1 ≠ some [1, 2, 3] := by
  constructor <;> decide

/-- C3 (amended): for an enabled kind, after any sequence of updates whose
last element carries nonempty bytes `data` at time `t`, a take at `now` with
`now - t` within the staleness timeout and a previous buffer different from
`data` returns presence with exactly `data`, byte-for-byte; in particular on
"video" (100 ms timeout) with an empty previous buffer, update `[1,2,3]`
then take 50 ms later returns `[1,2,3]`, while a take 150 ms after the
update returns no data. -/
theorem take_returns_latest_update (fr : FrameRaw) (us : List (Bytes × Nat))
    (data : Bytes) (t now : Nat) (last : Bytes)
    (hen : fr.enable = true) (hne : data ≠ []) (hlast : last ≠ data)
    (hfresh : now - t ≤ fr.timeout) :
    ((applyUpdates fr (us ++ [(data, t)])).take now last).1 = some data
    ∧ ((((videoRaw 0).set_enable true).update [1, 2, 3] 0).take 50 []).1 = some [1, 2, 3]
    ∧ ((((videoRaw 0).set_enable true).update [1, 2, 3] 0).take 150 []).1 = none := by
  refine ⟨?_, by decide, by decide⟩
  rw [applyUpdates_append]
  have hg : (applyUpdates fr us).enable = true :=
    (applyUpdates_enable us fr).trans hen
  have hgt : (applyUpdates fr us).timeout = fr.timeout :=
    applyUpdates_timeout us fr
  have hsingle : applyUpdates (applyUpdates fr us) [(data, t)] =
      (applyUpdates fr us).update data t := rfl
  rw [hsingle]
  have hlen : data.length ≠ 0 := fun h => hne (List.eq_nil_of_length_eq_zero h)
  have hnl : ¬ (fr.timeout < now - t) := by omega
  have hguard : (last.length == data.length &&
      would_block_if_equal_is_err last data) = false := by
    by_contra hcon
    rw [Bool.not_eq_false] at hcon
    exact hlast ((dedup_guard_eq_true_iff last data).mp hcon)
  simp [FrameRaw.update, FrameRaw.take, hg, hlen, hguard, hgt, hnl]

/-- Witness for C3 (amended) at concrete inputs. -/
theorem take_returns_latest_update_witness :
    ((applyUpdates ((videoRaw 0).set_enable true)
      ([([5], 0)] ++ [([1, 2], 3)])).take 40 []).1 = some [1, 2] :=
  (take_returns_latest_update ((videoRaw 0).set_enable true) [([5], 0)]
    [1, 2] 3 40 [] rfl (by decide) (by decide) (by decide)).1

/-- C5: for each clipboard direction, a publish overwrites any unconsumed
payload (last-write-wins), and take atomically removes and returns the
pending payload if present, else none; publishing `a` then `b` with no
intervening take makes a single take return exactly `b` and a second
consecutive take return none. -/
theorem clipboard_last_write_wins :
    (∀ (dir : Bool) (clips : MultiClipboards) (st : ClipboardState),
      (publish_clipboard dir clips st).slot dir = some clips)
    ∧ (∀ (dir : Bool) (st : ClipboardState),
      (get_clipboards dir st).1 = st.slot dir
      ∧ ((get_clipboards dir st).2).slot dir = none)
    ∧ (∀ (dir : Bool) (a b : MultiClipboards) (st : ClipboardState),
      (get_clipboards dir (publish_clipboard dir b (publish_clipboard dir a st))).1 = some b
      ∧ (get_clipboards dir
          (get_clipboards dir (publish_clipboard dir b (publish_clipboard dir a st))).2).1 = none) := by
  refine ⟨?_, ?_, ?_⟩
  · intro dir clips st
    cases dir <;> simp [publish_clipboard, get_clipboards, ClipboardState.slot]
  · intro dir st
    cases dir <;> simp [publish_clipboard, get_clipboards, ClipboardState.slot]
  · intro dir a b st
    cases dir <;> simp [publish_clipboard, get_clipboards, ClipboardState.slot]

/-- C10: the clipboard update entry point reads `data[0]` as the direction
tag (1 selects the client slot, anything else the host slot) and hands
`data[1..]` to the parser without a length check: with at least one byte
the call is total and performs the tagged overwrite, and on a zero-length
buffer the slicing is out of bounds and the call panics (`none`). -/
theorem onClipboardUpdate_length_precondition :
    (∀ st : ClipboardState, onClipboardUpdate [] st = none)
    ∧ (∀ (tag : Nat) (rest : Bytes) (st : ClipboardState),
      onClipboardUpdate (tag :: rest) st =
        some (publish_clipboard (tag == 1) ⟨rest⟩ st))
    ∧ (∀ (tag : Nat) (rest : Bytes) (st : ClipboardState),
      (onClipboardUpdate (tag :: rest) st).isSome = true) := by
  refine ⟨fun st => rfl, fun tag rest st => rfl, fun tag rest st => rfl⟩

/-- C1 counterexample: a second `sessionAdd` with an id already in the
registry does not fail — it returns the empty success string and silently
overwrites the stored session: after `add(0, "peerA")` then
`add(0, "peerB")` the registry holds the session for `"peerB"`, not the one
for `"peerA"`. -/
theorem sessionAdd_duplicate_counterexample :
    (sessionAdd (sessionAdd [] 0 "peerA").1 0 "peerB").2 = ""
    ∧ alGet (sessionAdd (sessionAdd [] 0 "peerA").1 0 "peerB").1 0 = some ⟨0, "peerB"⟩
    ∧ alGet (sessionAdd (sessionAdd [] 0 "peerA").1 0 "peerB").1 0 ≠ some ⟨0, "peerA"⟩ := by
  refine ⟨rfl, rfl, ?_⟩
  decide

/-- C1 (amended): a second `sessionAdd` with the same id always succeeds
(returns the empty success string) and silently overwrites the registry's
entry for that id with the newly created session. -/
theorem sessionAdd_overwrites (m : SessionMap) (sid : Nat) (peerA peerB : String) :
    (sessionAdd (sessionAdd m sid peerA).1 sid peerB).2 = ""
    ∧ alGet (sessionAdd (sessionAdd m sid peerA).1 sid peerB).1 sid = some ⟨sid, peerB⟩ :=
  ⟨rfl, alGet_alInsert_self _ _ _⟩

/-- C8: per-session operations invoked with a session id absent from the
registry are swallowed locally: the query calls return the empty string and
the control calls dispatch to no session; no error reaches the caller. -/
theorem missing_session_swallowed (m : SessionMap) (sid : Nat)
    (hmiss : alGet m sid = none) :
    (∀ (platformOf : Session → Bool → String) (is_remote : Bool),
      sessionGetPlatform platformOf m sid is_remote = "")
    ∧ (∀ qualityOf : Session → String,
      sessionGetImageQuality qualityOf m sid = "")
    ∧ (∀ ev : KeyEvent, sessionInputKey m sid ev = none)
    ∧ sessionLockScreen m sid = none := by
  refine ⟨?_, ?_, ?_, ?_⟩ <;>
    simp [sessionGetPlatform, sessionGetImageQuality, sessionInputKey,
      sessionLockScreen, hmiss]

/-- Witness for C8 at concrete inputs. -/
theorem missing_session_swallowed_witness :
    sessionGetPlatform (fun _ _ => "Windows") [] 7 true = ""
    ∧ sessionInputKey [] 7 ⟨"a", true, false, false, false, false, false⟩ = none :=
  ⟨(missing_session_swallowed [] 7 rfl).1 _ _,
   (missing_session_swallowed [] 7 rfl).2.2.1 _⟩

/-- C2 counterexample: registering a second sink for channel `"main"`, which
already holds sink 1, delivers no notification whatsoever to sink 1 — the
list of close notifications sent by the call is empty, in particular sink 1
never receives a close event. -/
theorem register_no_close_counterexample :
    alGet [("main", (1 : Sink))] "main" = some 1
    ∧ (register_global_event_callback [("main", 1)] "main" 2).closed = []
    ∧ (register_global_event_callback [("main", 1)] "main" 2).closed ≠
        [((1 : Sink), "close")] :=
  ⟨by decide, by decide, by decide⟩

/-- C2 (amended): when a sink is already registered under the first
comma-separated component of `app_type`, registering a new sink delivers no
close notification to the existing sink (a replacement warning is logged
instead), installs the new sink under the full `app_type` key, and every
subsequent push to `app_type` reaches only the newly installed sink. -/
theorem register_replaces_without_close (cbs : List (String × Sink))
    (app_type : String) (cbNew : Sink) (ev : String)
    (hdup : (alGet cbs (firstSplit app_type)).isNone = false) :
    (register_global_event_callback cbs app_type cbNew).closed = []
    ∧ (register_global_event_callback cbs app_type cbNew).callbacks =
        alInsert cbs app_type cbNew
    ∧ push_global_event (register_global_event_callback cbs app_type cbNew).callbacks
        app_type ev = some (cbNew, ev) := by
  rcases hx : alGet cbs (firstSplit app_type) with _ | oldCb
  · rw [hx] at hdup
    cases hdup
  · refine ⟨?_, ?_, ?_⟩ <;>
      simp [register_global_event_callback, hx, push_global_event,
        alGet_alInsert_self]

/-- Witness for C2 (amended) at concrete inputs. -/
theorem register_replaces_without_close_witness :
    (register_global_event_callback [("main", 1)] "main" 2).closed = []
    ∧ (register_global_event_callback [("main", 1)] "main" 2).callbacks =
        alInsert [("main", 1)] "main" 2
    ∧ push_global_event
        (register_global_event_callback [("main", 1)] "main" 2).callbacks
        "main" "ev" = some (2, "ev") :=
  register_replaces_without_close [("main", 1)] "main" 2 "ev" (by decide)

/-- C7 counterexample: replacing the per-session sink of a session whose
handler holds sink 1 delivers the event `"close"` to sink 1, not
`"closing"`: the events sent are exactly `[(1, "close")]` and contain no
`"closing"` event. -/
theorem session_replace_close_counterexample :
    (sessionsReplace [[(0, ⟨some 1⟩)]] 0 2).sent = [((1 : Sink), "close")]
    ∧ ((1 : Sink), "closing") ∉ (sessionsReplace [[(0, ⟨some 1⟩)]] 0 2).sent := by
  refine ⟨rfl, ?_⟩
  decide

/-- C7 (amended): replacing a session's registered event sink first delivers
the terminal event `"close"` (not `"closing"`) to the superseded sink, then
installs the replacement sink, which becomes the one the handler holds;
sessions not holding the id are left untouched and the call reports
success. -/
theorem session_replace_sends_close (s : List (Nat × AndroidSessionHandler))
    (rest : FlutterSessions) (sid : Nat) (old cbNew : Sink)
    (hget : alGet s sid = some ⟨some old⟩) :
    sessionsReplace (s :: rest) sid cbNew =
      ⟨alInsert s sid ⟨some cbNew⟩ :: rest, [(old, "close")], true, true⟩
    ∧ alGet (alInsert s sid ⟨some cbNew⟩) sid = some ⟨some cbNew⟩
    ∧ session_start_with_android_callback (s :: rest) sid cbNew =
        .ok ⟨alInsert s sid ⟨some cbNew⟩ :: rest, [(old, "close")], true, true⟩
    ∧ (∀ s2 : List (Nat × AndroidSessionHandler), alGet s2 sid = none →
        sessionsReplace (s2 :: s :: rest) sid cbNew =
          ⟨s2 :: alInsert s sid ⟨some cbNew⟩ :: rest, [(old, "close")], true, true⟩) := by
  have h1 : sessionsReplace (s :: rest) sid cbNew =
      ⟨alInsert s sid ⟨some cbNew⟩ :: rest, [(old, "close")], true, true⟩ := by
    simp [sessionsReplace, hget]
  refine ⟨h1, alGet_alInsert_self _ _ _, ?_, ?_⟩
  · simp [session_start_with_android_callback, h1]
  · intro s2 hs2
    rw [sessionsReplace_skip s2 (s :: rest) sid cbNew hs2, h1]

/-- Witness for C7 (amended) at concrete inputs. -/
theorem session_replace_sends_close_witness :
    sessionsReplace [[(0, ⟨some 1⟩)]] 0 2 =
      ⟨[alInsert [(0, ⟨some 1⟩)] 0 ⟨some 2⟩], [(1, "close")], true, true⟩
    ∧ sessionsReplace [[], [(0, ⟨some 1⟩)]] 0 2 =
      ⟨[[], alInsert [(0, ⟨some 1⟩)] 0 ⟨some 2⟩], [(1, "close")], true, true⟩ :=
  ⟨(session_replace_sends_close [(0, ⟨some 1⟩)] [] 0 1 2 rfl).1,
   (session_replace_sends_close [(0, ⟨some 1⟩)] [] 0 1 2 rfl).2.2.2 [] rfl⟩
